import Mathlib

/-!
Shallow embedding of the whatsappdau WhatsApp Cloud API client
(models.go, response.go).

The HTTP transport, Go's encoding/json, and the filesystem are external
collaborators.  Each client operation is modelled as a function of the
outcomes of its I/O steps (JSON marshal, request construction, client.Do,
response-body read, response decode), inspected in exactly the order the Go
code inspects them.  JSON serialization of the payload structs
(encoding/json with the source's struct tags, including omitempty on
string fields and nil pointers/slices) is modelled by the serialize
functions, producing key/value field lists; Go float64 fields are modelled
as rationals, since no claim depends on float rounding.
-/

/-- A JSON value, for modelling the marshalled payloads. -/
inductive Jval where
  | str : String → Jval
  | num : Rat → Jval
  | obj : List (String × Jval) → Jval
  | arr : List Jval → Jval

/-- The keys of a serialized JSON object, in emission order. -/
def jsonKeys (fields : List (String × Jval)) : List String :=
  fields.map Prod.fst

/-- models.go: the nested audio struct of AudioMessage, holding the media ID. -/
structure AudioRef where
  id : String
deriving DecidableEq

/-- models.go AudioMessage: messaging_product, to, type, audio (no recipient_type field). -/
structure AudioMessage where
  messaging_product : String
  «to» : String
  type : String
  audio : AudioRef
deriving DecidableEq

/-- models.go: the nested image struct of ImageMessage. -/
structure ImageRef where
  id : String
deriving DecidableEq

/-- models.go ImageMessage: messaging_product, to, type, image (no recipient_type field). -/
structure ImageMessage where
  messaging_product : String
  «to» : String
  type : String
  image : ImageRef
deriving DecidableEq

/-- models.go: the nested location struct of LocationMessage; name and address carry
the omitempty tag.  float64 latitude/longitude are modelled as rationals. -/
structure LocationFields where
  latitude : Rat
  longitude : Rat
  name : String
  address : String
deriving DecidableEq

/-- models.go LocationMessage: messaging_product, to, type, location (no recipient_type field). -/
structure LocationMessage where
  messaging_product : String
  «to» : String
  type : String
  location : LocationFields
deriving DecidableEq

/-- models.go BodyText. -/
structure BodyText where
  text : String
deriving DecidableEq

/-- models.go ListItem: description carries omitempty. -/
structure ListItem where
  id : String
  title : String
  description : String
deriving DecidableEq

/-- models.go ListSection: title carries omitempty. -/
structure ListSection where
  title : String
  rows : List ListItem
deriving DecidableEq

/-- models.go ListAction. -/
structure ListAction where
  button : String
  sections : List ListSection
deriving DecidableEq

/-- models.go ListInteractive. -/
structure ListInteractive where
  type : String
  body : BodyText
  action : ListAction
deriving DecidableEq

/-- models.go ButtonItem: link and type carry omitempty (only relevant to requests). -/
structure ButtonItem where
  text : String
  id : String
  link : String
  type : String
deriving DecidableEq

/-- models.go Parameters of a cta_url action. -/
structure Parameters where
  display_text : String
  url : String
deriving DecidableEq

/-- models.go ButtonReply: url and text carry omitempty. -/
structure ButtonReply where
  id : String
  title : String
  url : String
  text : String
deriving DecidableEq

/-- The anonymous struct built in the SendInteractiveButtons loop
(response.go lines 159-168): a type tag plus a ButtonReply. -/
structure BackBtn where
  type : String
  reply : ButtonReply
deriving DecidableEq

/-- models.go ButtonAction: name carries omitempty, parameters is a nullable
pointer (Option), buttons a slice with omitempty; the loop only ever appends
BackBtn values to it. -/
structure ButtonAction where
  name : String
  parameters : Option Parameters
  buttons : List BackBtn
deriving DecidableEq

/-- models.go ButtonsInteractive (the omitempty tag on the struct-typed action
field is a no-op in encoding/json, so action is always emitted). -/
structure ButtonsInteractive where
  type : String
  body : BodyText
  action : ButtonAction
deriving DecidableEq

/-- The interface-typed Interactive field of WhatsAppMessage only ever holds a
ListInteractive or a ButtonsInteractive, so it is modelled as a sum. -/
inductive Interactive where
  | list : ListInteractive → Interactive
  | buttons : ButtonsInteractive → Interactive
deriving DecidableEq

/-- models.go WhatsAppMessage. -/
structure WhatsAppMessage where
  messaging_product : String
  recipient_type : String
  «to» : String
  type : String
  interactive : Interactive
deriving DecidableEq

/-- response.go Contacts. -/
structure Contacts where
  input : String
  wa_id : String
deriving DecidableEq

/-- response.go Messages. -/
structure Messages where
  id : String
deriving DecidableEq

/-- response.go MessageResponse: the platform's acknowledgment envelope. -/
structure MessageResponse where
  messaging_product : String
  contacts : List Contacts
  messages : List Messages
deriving DecidableEq

/-- The error values the client returns, one constructor per family of
fmt.Errorf sites in response.go: file open, multipart form-file creation,
file copy, multipart writer close, JSON marshal, http.NewRequest failure,
client.Do failure, io.ReadAll failure, response-decode failure, and
non-success HTTP status (carrying the status code and, where the source
includes it in the message, the raw response body). -/
inductive GoErr where
  | ioOpen : String → GoErr
  | formFile : String → GoErr
  | fileCopy : String → GoErr
  | writerClose : String → GoErr
  | marshal : String → GoErr
  | newRequest : String → GoErr
  | transport : String → GoErr
  | readBody : String → GoErr
  | decode : String → GoErr
  | rejected : Nat → Option String → GoErr
deriving DecidableEq

/-- One HTTP exchange whose body is consumed by a json.Decoder: the outcome
of client.Do, the response status, and the raw response body. -/
structure Exchange where
  doErr : Option String
  status : Nat
  body : String
deriving DecidableEq

/-- One HTTP exchange whose body is read whole with io.ReadAll before any
decoding: adds the read outcome. -/
structure ReadExchange where
  doErr : Option String
  status : Nat
  readErr : Option String
  body : String
deriving DecidableEq

/-- Outcomes of the local-file and multipart steps of uploadMedia
(os.Open, CreateFormFile, io.Copy, writer.Close, http.NewRequest) plus its
HTTP exchange. -/
structure UploadEnv where
  openErr : Option String
  formFileErr : Option String
  copyErr : Option String
  closeErr : Option String
  newReqErr : Option String
  ex : Exchange
deriving DecidableEq

/-- The request payload an operation constructs and posts: the text-send map
literal, a WhatsAppMessage, an AudioMessage, an ImageMessage, or a
LocationMessage. -/
inductive Payload where
  | textPayload : String → String → Payload
  | waMessage : WhatsAppMessage → Payload
  | audioPayload : AudioMessage → Payload
  | imagePayload : ImageMessage → Payload
  | locationPayload : LocationMessage → Payload
deriving DecidableEq

/-- response.go sendWhatsAppMedia lines 317-322: the AudioMessage it builds. -/
def mkAudioMessage (recipientPhone mediaID : String) : AudioMessage :=
  { messaging_product := "whatsapp"
    «to» := recipientPhone
    type := "audio"
    audio := { id := mediaID } }

/-- response.go sendWhatsAppImage lines 358-363: the ImageMessage it builds. -/
def mkImageMessage (recipientPhone mediaID : String) : ImageMessage :=
  { messaging_product := "whatsapp"
    «to» := recipientPhone
    type := "image"
    image := { id := mediaID } }

/-- response.go SendWhatsAppLocation lines 395-403: the LocationMessage it
builds; note the struct has no recipient_type field at all. -/
def mkLocationMessage (recipientPhone : String) (latitude longitude : Rat)
    (name address : String) : LocationMessage :=
  { messaging_product := "whatsapp"
    «to» := recipientPhone
    type := "location"
    location :=
      { latitude := latitude
        longitude := longitude
        name := name
        address := address } }

/-- response.go lines 159-170: the reply entry built for a button without a
link; url and text of the ButtonReply are left at their zero value. -/
def mkBackBtn (btn : ButtonItem) : BackBtn :=
  { type := btn.type
    reply := { id := btn.id, title := btn.text, url := "", text := "" } }

/-- One iteration of the loop at response.go lines 150-172: a button with a
non-empty link overwrites name and parameters; any other button is appended
to the reply-buttons list (the list is never cleared). -/
def buttonStep (action : ButtonAction) (btn : ButtonItem) : ButtonAction :=
  if btn.link ≠ "" then
    { action with
        name := "cta_url"
        parameters := some { display_text := btn.text, url := btn.link } }
  else
    { action with buttons := action.buttons ++ [mkBackBtn btn] }

/-- response.go lines 142-172: the ButtonAction SendInteractiveButtons builds
when menuType is not "text": start from the zero action (name "send_location"
when menuType is "location_request_message"), then fold the loop over the
buttons in input order. -/
def buildButtonAction (menuType : String) (buttons : List ButtonItem) : ButtonAction :=
  buttons.foldl buttonStep
    { name := if menuType = "location_request_message" then "send_location" else ""
      parameters := none
      buttons := [] }

/-- response.go SendInteractiveList lines 113-136: the message it builds
(a single section with no title wrapping the rows). -/
def mkListMessage (recipientPhoneNumber bodyText buttonTitle : String)
    (items : List ListItem) : WhatsAppMessage :=
  { messaging_product := "whatsapp"
    recipient_type := "individual"
    «to» := recipientPhoneNumber
    type := "interactive"
    interactive := Interactive.list
      { type := "list"
        body := { text := bodyText }
        action := { button := buttonTitle, sections := [{ title := "", rows := items }] } } }

/-- response.go SendInteractiveButtons lines 174-188: the message it builds
when menuType is not "text". -/
def mkButtonsMessage (recipientPhoneNumber menuType bodyText : String)
    (buttons : List ButtonItem) : WhatsAppMessage :=
  { messaging_product := "whatsapp"
    recipient_type := "individual"
    «to» := recipientPhoneNumber
    type := "interactive"
    interactive := Interactive.buttons
      { type := menuType
        body := { text := bodyText }
        action := buildButtonAction menuType buttons } }

/-- response.go SendMessage lines 62-110.  Each failure point returns in
order: json.Marshal, http.NewRequest, client.Do, io.ReadAll, then
json.Unmarshal of the body, and only after a successful decode the status
check, which accepts exactly 200 and 202 and otherwise rejects with the
status code and the raw body.  The first component is the payload the call
constructs (the text map literal). -/
def SendMessage (recipientWAID messageBody : String)
    (marshalErr newReqErr : Option String) (ex : ReadExchange)
    (dec : String → Except String MessageResponse) :
    List Payload × Except GoErr MessageResponse :=
  ([Payload.textPayload recipientWAID messageBody],
   match marshalErr with
   | some e => Except.error (GoErr.marshal e)
   | none =>
     match newReqErr with
     | some e => Except.error (GoErr.newRequest e)
     | none =>
       match ex.doErr with
       | some e => Except.error (GoErr.transport e)
       | none =>
         match ex.readErr with
         | some e => Except.error (GoErr.readBody e)
         | none =>
           match dec ex.body with
           | Except.error e => Except.error (GoErr.decode e)
           | Except.ok mr =>
             if ex.status ≠ 200 ∧ ex.status ≠ 202 then
               Except.error (GoErr.rejected ex.status (some ex.body))
             else Except.ok mr)

/-- response.go sendListMessage lines 193-230.  A json.Marshal failure and a
json Decode failure are only printed, not returned: the function proceeds and
returns a success result regardless (on a decode failure the response is left
at its zero value).  Only a client.Do failure is returned.  The status code
is printed but never inspected.  (An http.NewRequest failure is likewise only
printed; the code then calls client.Do on a nil request, which crashes rather
than returning, so it lies outside this result model.) -/
def sendListMessage (message : WhatsAppMessage) (marshalErr : Option String)
    (ex : Exchange) (dec : String → Except String MessageResponse) :
    List Payload × Except GoErr MessageResponse :=
  ([Payload.waMessage message],
   match ex.doErr with
   | some e => Except.error (GoErr.transport e)
   | none =>
     match dec ex.body with
     | Except.error _ => Except.ok { messaging_product := "", contacts := [], messages := [] }
     | Except.ok r => Except.ok r)

/-- response.go SendInteractiveList lines 112-139: build the list message and
hand it to sendListMessage. -/
def SendInteractiveList (recipientPhoneNumber bodyText buttonTitle : String)
    (items : List ListItem) (marshalErr : Option String) (ex : Exchange)
    (dec : String → Except String MessageResponse) :
    List Payload × Except GoErr MessageResponse :=
  sendListMessage (mkListMessage recipientPhoneNumber bodyText buttonTitle items)
    marshalErr ex dec

/-- response.go SendInteractiveButtons lines 141-191: menuType "text" returns
the plain SendMessage call directly; otherwise the buttons message is built
and handed to sendListMessage.  The text path takes SendMessage's step
outcomes, the interactive path sendListMessage's. -/
def SendInteractiveButtons (recipientPhoneNumber menuType bodyText : String)
    (buttons : List ButtonItem)
    (tMarshalErr tNewReqErr : Option String) (tEx : ReadExchange)
    (tDec : String → Except String MessageResponse)
    (lMarshalErr : Option String) (lEx : Exchange)
    (lDec : String → Except String MessageResponse) :
    List Payload × Except GoErr MessageResponse :=
  if menuType = "text" then
    SendMessage recipientPhoneNumber bodyText tMarshalErr tNewReqErr tEx tDec
  else
    sendListMessage (mkButtonsMessage recipientPhoneNumber menuType bodyText buttons)
      lMarshalErr lEx lDec

/-- response.go sendWhatsAppMedia lines 315-355: marshal, request, transport
failures return in order; a status of 300 or above is rejected with the
status code only (no body in the message); otherwise the body is decoded and
a decode failure is returned. -/
def sendWhatsAppMedia (recipientPhone mediaID : String)
    (marshalErr newReqErr : Option String) (ex : Exchange)
    (dec : String → Except String MessageResponse) :
    List Payload × Except GoErr MessageResponse :=
  ([Payload.audioPayload (mkAudioMessage recipientPhone mediaID)],
   match marshalErr with
   | some e => Except.error (GoErr.marshal e)
   | none =>
     match newReqErr with
     | some e => Except.error (GoErr.newRequest e)
     | none =>
       match ex.doErr with
       | some e => Except.error (GoErr.transport e)
       | none =>
         if 300 ≤ ex.status then Except.error (GoErr.rejected ex.status none)
         else
           match dec ex.body with
           | Except.error e => Except.error (GoErr.decode e)
           | Except.ok r => Except.ok r)

/-- response.go sendWhatsAppImage lines 357-392: like the audio send but the
rejection message includes the body (read with its error ignored) and the
success path performs no decode at all. -/
def sendWhatsAppImage (recipientPhone mediaID : String)
    (marshalErr newReqErr : Option String) (ex : Exchange) :
    List Payload × Except GoErr Unit :=
  ([Payload.imagePayload (mkImageMessage recipientPhone mediaID)],
   match marshalErr with
   | some e => Except.error (GoErr.marshal e)
   | none =>
     match newReqErr with
     | some e => Except.error (GoErr.newRequest e)
     | none =>
       match ex.doErr with
       | some e => Except.error (GoErr.transport e)
       | none =>
         if 300 ≤ ex.status then Except.error (GoErr.rejected ex.status (some ex.body))
         else Except.ok ())

/-- response.go SendWhatsAppLocation lines 394-440: marshal, request,
transport failures return in order; a status of 300 or above is rejected with
status and body; otherwise the response is decoded and a decode failure is
returned. -/
def SendWhatsAppLocation (recipientPhone : String) (latitude longitude : Rat)
    (name address : String) (marshalErr newReqErr : Option String)
    (ex : Exchange) (dec : String → Except String MessageResponse) :
    List Payload × Except GoErr MessageResponse :=
  ([Payload.locationPayload (mkLocationMessage recipientPhone latitude longitude name address)],
   match marshalErr with
   | some e => Except.error (GoErr.marshal e)
   | none =>
     match newReqErr with
     | some e => Except.error (GoErr.newRequest e)
     | none =>
       match ex.doErr with
       | some e => Except.error (GoErr.transport e)
       | none =>
         if 300 ≤ ex.status then Except.error (GoErr.rejected ex.status (some ex.body))
         else
           match dec ex.body with
           | Except.error e => Except.error (GoErr.decode e)
           | Except.ok r => Except.ok r)

/-- response.go uploadMedia lines 258-313: file open, form-file creation,
file copy, writer close, request creation, transport failures return in
order; a status of 300 or above is rejected with status and body; otherwise
the id field is extracted from the decoded body. -/
def uploadMedia (filePath mediaType : String) (env : UploadEnv)
    (dec : String → Except String String) : Except GoErr String :=
  match env.openErr with
  | some e => Except.error (GoErr.ioOpen e)
  | none =>
    match env.formFileErr with
    | some e => Except.error (GoErr.formFile e)
    | none =>
      match env.copyErr with
      | some e => Except.error (GoErr.fileCopy e)
      | none =>
        match env.closeErr with
        | some e => Except.error (GoErr.writerClose e)
        | none =>
          match env.newReqErr with
          | some e => Except.error (GoErr.newRequest e)
          | none =>
            match env.ex.doErr with
            | some e => Except.error (GoErr.transport e)
            | none =>
              if 300 ≤ env.ex.status then
                Except.error (GoErr.rejected env.ex.status (some env.ex.body))
              else
                match dec env.ex.body with
                | Except.error e => Except.error (GoErr.decode e)
                | Except.ok mediaId => Except.ok mediaId

/-- response.go SendAudioToWhatsApp lines 232-243: upload with the fixed MIME
type audio/ogg, then send the audio message referencing the returned media
ID, discarding the send's response; on success the media ID itself is
returned. -/
def SendAudioToWhatsApp (recipientWAID filePath : String)
    (uenv : UploadEnv) (udec : String → Except String String)
    (marshalErr newReqErr : Option String) (ex : Exchange)
    (dec : String → Except String MessageResponse) :
    List Payload × Except GoErr String :=
  match uploadMedia filePath "audio/ogg" uenv udec with
  | Except.error e => ([], Except.error e)
  | Except.ok mediaId =>
    let sent := sendWhatsAppMedia recipientWAID mediaId marshalErr newReqErr ex dec
    match sent.2 with
    | Except.error e => (sent.1, Except.error e)
    | Except.ok _ => (sent.1, Except.ok mediaId)

/-- response.go SendImageToWhatsApp lines 245-256: upload with the fixed MIME
type image/jpeg, then send the image message referencing the returned media
ID; on success the media ID is returned. -/
def SendImageToWhatsApp (recipientWAID filePath : String)
    (uenv : UploadEnv) (udec : String → Except String String)
    (marshalErr newReqErr : Option String) (ex : Exchange) :
    List Payload × Except GoErr String :=
  match uploadMedia filePath "image/jpeg" uenv udec with
  | Except.error e => ([], Except.error e)
  | Except.ok mediaId =>
    let sent := sendWhatsAppImage recipientWAID mediaId marshalErr newReqErr ex
    match sent.2 with
    | Except.error e => (sent.1, Except.error e)
    | Except.ok _ => (sent.1, Except.ok mediaId)

/-- response.go DownloadMedia lines 464-483: request creation, transport and
body-read failures return in order; otherwise the full raw body is returned.
The response status is never inspected. -/
def DownloadMedia (mediaUrl : String) (newReqErr : Option String)
    (ex : ReadExchange) : Except GoErr String :=
  match newReqErr with
  | some e => Except.error (GoErr.newRequest e)
  | none =>
    match ex.doErr with
    | some e => Except.error (GoErr.transport e)
    | none =>
      match ex.readErr with
      | some e => Except.error (GoErr.readBody e)
      | none => Except.ok ex.body

/-- encoding/json on the map literal of SendMessage (lines 63-71): map keys
are emitted in sorted order; no omitempty is involved. -/
def serializeTextPayload (recipientWAID messageBody : String) : List (String × Jval) :=
  [("messaging_product", Jval.str "whatsapp"),
   ("recipient_type", Jval.str "individual"),
   ("text", Jval.obj [("body", Jval.str messageBody)]),
   ("to", Jval.str recipientWAID),
   ("type", Jval.str "text")]

/-- encoding/json on BodyText. -/
def serializeBodyText (b : BodyText) : List (String × Jval) :=
  [("text", Jval.str b.text)]

/-- encoding/json on ListItem: description omitted when empty. -/
def serializeListItem (i : ListItem) : List (String × Jval) :=
  [("id", Jval.str i.id), ("title", Jval.str i.title)]
  ++ (if i.description = "" then [] else [("description", Jval.str i.description)])

/-- encoding/json on ListSection: title omitted when empty. -/
def serializeListSection (s : ListSection) : List (String × Jval) :=
  (if s.title = "" then [] else [("title", Jval.str s.title)])
  ++ [("rows", Jval.arr (s.rows.map (fun i => Jval.obj (serializeListItem i))))]

/-- encoding/json on ListAction. -/
def serializeListAction (a : ListAction) : List (String × Jval) :=
  [("button", Jval.str a.button),
   ("sections", Jval.arr (a.sections.map (fun s => Jval.obj (serializeListSection s))))]

/-- encoding/json on ButtonReply: url and text omitted when empty. -/
def serializeButtonReply (r : ButtonReply) : List (String × Jval) :=
  [("id", Jval.str r.id), ("title", Jval.str r.title)]
  ++ (if r.url = "" then [] else [("url", Jval.str r.url)])
  ++ (if r.text = "" then [] else [("text", Jval.str r.text)])

/-- encoding/json on the loop's anonymous reply struct. -/
def serializeBackBtn (b : BackBtn) : List (String × Jval) :=
  [("type", Jval.str b.type), ("reply", Jval.obj (serializeButtonReply b.reply))]

/-- encoding/json on ButtonAction: name omitted when empty, parameters
omitted when nil, buttons omitted when empty. -/
def serializeButtonAction (a : ButtonAction) : List (String × Jval) :=
  (if a.name = "" then [] else [("name", Jval.str a.name)])
  ++ (match a.parameters with
      | none => []
      | some p =>
        [("parameters",
          Jval.obj [("display_text", Jval.str p.display_text), ("url", Jval.str p.url)])])
  ++ (if a.buttons.isEmpty then []
      else [("buttons", Jval.arr (a.buttons.map (fun b => Jval.obj (serializeBackBtn b))))])

/-- encoding/json on the Interactive slot. -/
def serializeInteractive : Interactive → Jval
  | Interactive.list li =>
    Jval.obj [("type", Jval.str li.type),
              ("body", Jval.obj (serializeBodyText li.body)),
              ("action", Jval.obj (serializeListAction li.action))]
  | Interactive.buttons bi =>
    Jval.obj [("type", Jval.str bi.type),
              ("body", Jval.obj (serializeBodyText bi.body)),
              ("action", Jval.obj (serializeButtonAction bi.action))]

/-- encoding/json on WhatsAppMessage: all five fields always emitted, in
struct order. -/
def serializeWhatsAppMessage (m : WhatsAppMessage) : List (String × Jval) :=
  [("messaging_product", Jval.str m.messaging_product),
   ("recipient_type", Jval.str m.recipient_type),
   ("to", Jval.str m.«to»),
   ("type", Jval.str m.type),
   ("interactive", serializeInteractive m.interactive)]

/-- encoding/json on AudioMessage: four fields, no recipient_type. -/
def serializeAudioMessage (m : AudioMessage) : List (String × Jval) :=
  [("messaging_product", Jval.str m.messaging_product),
   ("to", Jval.str m.«to»),
   ("type", Jval.str m.type),
   ("audio", Jval.obj [("id", Jval.str m.audio.id)])]

/-- encoding/json on ImageMessage: four fields, no recipient_type. -/
def serializeImageMessage (m : ImageMessage) : List (String × Jval) :=
  [("messaging_product", Jval.str m.messaging_product),
   ("to", Jval.str m.«to»),
   ("type", Jval.str m.type),
   ("image", Jval.obj [("id", Jval.str m.image.id)])]

/-- encoding/json on the nested location struct: latitude and longitude
always emitted; name and address omitted exactly when empty (omitempty),
never emitted as null. -/
def serializeLocationFields (l : LocationFields) : List (String × Jval) :=
  [("latitude", Jval.num l.latitude), ("longitude", Jval.num l.longitude)]
  ++ (if l.name = "" then [] else [("name", Jval.str l.name)])
  ++ (if l.address = "" then [] else [("address", Jval.str l.address)])

/-- encoding/json on LocationMessage: four fields, no recipient_type. -/
def serializeLocationMessage (m : LocationMessage) : List (String × Jval) :=
  [("messaging_product", Jval.str m.messaging_product),
   ("to", Jval.str m.«to»),
   ("type", Jval.str m.type),
   ("location", Jval.obj (serializeLocationFields m.location))]

/-- The last button with a non-empty link, in input order. -/
def lastLinkBtn : List ButtonItem → Option ButtonItem
  | [] => none
  | b :: rest =>
    match lastLinkBtn rest with
    | some lb => some lb
    | none => if b.link ≠ "" then some b else none

theorem lastLinkBtn_eq_getLast (btns : List ButtonItem) :
    lastLinkBtn btns = (btns.filter (fun b => b.link ≠ "")).getLast? := by
  induction btns with
  | nil => rfl
  | cons b rest ih =>
    by_cases hb : b.link = ""
    · have hfil : (b :: rest).filter (fun b => b.link ≠ "")
          = rest.filter (fun b => b.link ≠ "") := by
        simp [List.filter_cons, hb]
      rw [hfil, ← ih]
      show (match lastLinkBtn rest with
            | some lb => some lb
            | none => if b.link ≠ "" then some b else none) = lastLinkBtn rest
      cases lastLinkBtn rest <;> simp [hb]
    · have hfil : (b :: rest).filter (fun b => b.link ≠ "")
          = b :: rest.filter (fun b => b.link ≠ "") := by
        simp [List.filter_cons, hb]
      rw [hfil]
      show (match lastLinkBtn rest with
            | some lb => some lb
            | none => if b.link ≠ "" then some b else none) = _
      rw [ih]
      cases hfr : rest.filter (fun b => b.link ≠ "") with
      | nil => simp [hb]
      | cons c cs =>
        rw [List.getLast?_cons_cons]
        cases hl : (c :: cs).getLast? with
        | none => rw [List.getLast?_eq_none_iff] at hl; cases hl
        | some lb => simp

theorem foldl_buttonStep_buttons (btns : List ButtonItem) (init : ButtonAction) :
    (btns.foldl buttonStep init).buttons
      = init.buttons ++ (btns.filter (fun b => b.link = "")).map mkBackBtn := by
  induction btns generalizing init with
  | nil => simp
  | cons b rest ih =>
    rw [List.foldl_cons, ih]
    by_cases h : b.link = ""
    · simp [buttonStep, h, List.filter_cons, List.append_assoc]
    · simp [buttonStep, h, List.filter_cons]

theorem foldl_buttonStep_name_params (btns : List ButtonItem) (init : ButtonAction) :
    (lastLinkBtn btns = none →
        (btns.foldl buttonStep init).name = init.name ∧
        (btns.foldl buttonStep init).parameters = init.parameters) ∧
    (∀ lb, lastLinkBtn btns = some lb →
        (btns.foldl buttonStep init).name = "cta_url" ∧
        (btns.foldl buttonStep init).parameters
          = some { display_text := lb.text, url := lb.link }) := by
  induction btns generalizing init with
  | nil => simp [lastLinkBtn]
  | cons b rest ih =>
    rw [List.foldl_cons]
    cases hrest : lastLinkBtn rest with
    | some lb0 =>
      refine ⟨fun hnone => ?_, fun lb heq => ?_⟩
      · simp [lastLinkBtn, hrest] at hnone
      · have heq' : lb0 = lb := by simpa [lastLinkBtn, hrest] using heq
        subst heq'
        exact (ih (buttonStep init b)).2 lb0 hrest
    | none =>
      by_cases hb : b.link = ""
      · refine ⟨fun _ => ?_, fun lb heq => ?_⟩
        · have h1 := (ih (buttonStep init b)).1 hrest
          simpa [buttonStep, hb] using h1
        · simp [lastLinkBtn, hrest, hb] at heq
      · refine ⟨fun hnone => ?_, fun lb heq => ?_⟩
        · simp [lastLinkBtn, hrest, hb] at hnone
        · have heq' : b = lb := by simpa [lastLinkBtn, hrest, hb] using heq
          subst heq'
          have h1 := (ih (buttonStep init b)).1 hrest
          simpa [buttonStep, hb] using h1

/-- Claim C3: for every recipient, bodyText, and buttons list, calling
SendInteractiveButtons with menuType "text" returns exactly what
SendMessage(recipient, bodyText) returns, same result and same error
behaviour, and the only payload constructed is the plain text payload
(no interactive payload). -/
theorem C3_text_passthrough (recipient bodyText : String) (btns : List ButtonItem)
    (tmE tnE : Option String) (tEx : ReadExchange)
    (tDec : String → Except String MessageResponse)
    (lmE : Option String) (lEx : Exchange)
    (lDec : String → Except String MessageResponse) :
    SendInteractiveButtons recipient "text" bodyText btns tmE tnE tEx tDec lmE lEx lDec
      = SendMessage recipient bodyText tmE tnE tEx tDec ∧
    (SendInteractiveButtons recipient "text" bodyText btns tmE tnE tEx tDec lmE lEx lDec).1
      = [Payload.textPayload recipient bodyText] := by
  constructor
  · simp [SendInteractiveButtons]
  · simp [SendInteractiveButtons, SendMessage]

/-- Claim C4: when menuType is neither "text" nor "location_request_message"
and the buttons list holds at least two link-bearing buttons, the action
built by SendInteractiveButtons has name "cta_url", its parameters are the
display text and URL of the last link-bearing button in input order, and the
reply-buttons list holds exactly the buttons without a link, so no
link-bearing button appears in it. -/
theorem C4_cta_url_last_link_wins (menuType : String) (btns : List ButtonItem)
    (lb : ButtonItem)
    (hmt1 : menuType ≠ "text") (hmt2 : menuType ≠ "location_request_message")
    (htwo : 2 ≤ (btns.filter (fun b => b.link ≠ "")).length)
    (hlast : (btns.filter (fun b => b.link ≠ "")).getLast? = some lb) :
    (buildButtonAction menuType btns).name = "cta_url" ∧
    (buildButtonAction menuType btns).parameters
      = some { display_text := lb.text, url := lb.link } ∧
    (buildButtonAction menuType btns).buttons
      = (btns.filter (fun b => b.link = "")).map mkBackBtn := by
  have hlast' : lastLinkBtn btns = some lb := by
    rw [lastLinkBtn_eq_getLast]; exact hlast
  have h1 := (foldl_buttonStep_name_params btns
    { name := if menuType = "location_request_message" then "send_location" else ""
      parameters := none
      buttons := [] }).2 lb hlast'
  have h2 := foldl_buttonStep_buttons btns
    { name := if menuType = "location_request_message" then "send_location" else ""
      parameters := none
      buttons := [] }
  refine ⟨h1.1, h1.2, ?_⟩
  simpa [buildButtonAction] using h2

/-- Witness for C4 at a concrete input: menuType "cta" and two link-bearing
buttons; the second link wins and the reply list is empty. -/
theorem C4_cta_url_last_link_wins_witness :
    (buildButtonAction "cta"
        [{ text := "One", id := "b1", link := "https://one.example", type := "" },
         { text := "Two", id := "b2", link := "https://two.example", type := "" }]).name
      = "cta_url" ∧
    (buildButtonAction "cta"
        [{ text := "One", id := "b1", link := "https://one.example", type := "" },
         { text := "Two", id := "b2", link := "https://two.example", type := "" }]).parameters
      = some { display_text := "Two", url := "https://two.example" } ∧
    (buildButtonAction "cta"
        [{ text := "One", id := "b1", link := "https://one.example", type := "" },
         { text := "Two", id := "b2", link := "https://two.example", type := "" }]).buttons
      = ([{ text := "One", id := "b1", link := "https://one.example", type := "" },
          { text := "Two", id := "b2", link := "https://two.example", type := "" }].filter
            (fun b => b.link = "")).map mkBackBtn :=
  C4_cta_url_last_link_wins "cta"
    [{ text := "One", id := "b1", link := "https://one.example", type := "" },
     { text := "Two", id := "b2", link := "https://two.example", type := "" }]
    { text := "Two", id := "b2", link := "https://two.example", type := "" }
    (by decide) (by decide) (by decide) (by decide)

/-- Claim C5 counterexample: with a reply button followed by a link-bearing
button, the link switches the action to cta_url, but the earlier reply
button is NOT overwritten: it stays in the action's buttons list and the
serialized action still carries a buttons key listing it. -/
theorem C5_counterexample_reply_button_retained :
    (buildButtonAction "cta"
        [{ text := "Back", id := "back1", link := "", type := "reply" },
         { text := "Open", id := "cta1", link := "https://example.com", type := "" }]).name
      = "cta_url" ∧
    (buildButtonAction "cta"
        [{ text := "Back", id := "back1", link := "", type := "reply" },
         { text := "Open", id := "cta1", link := "https://example.com", type := "" }]).buttons
      = [{ type := "reply",
           reply := { id := "back1", title := "Back", url := "", text := "" } }] ∧
    "buttons" ∈ jsonKeys (serializeButtonAction (buildButtonAction "cta"
        [{ text := "Back", id := "back1", link := "", type := "reply" },
         { text := "Open", id := "cta1", link := "https://example.com", type := "" }])) := by
  decide

/-- Claim C5 as amended: a link-bearing button switches the action's name and
parameters to the cta_url sub-kind, but it does not clear the reply-buttons
list: for every menuType and buttons list the final reply-buttons list is
exactly the non-link buttons in input order (those appended before a
link-bearing button included), and a serialized action carries the buttons
key exactly when that list is non-empty. -/
theorem C5_reply_buttons_not_overwritten :
    (∀ (menuType : String) (btns : List ButtonItem),
        (buildButtonAction menuType btns).buttons
          = (btns.filter (fun b => b.link = "")).map mkBackBtn) ∧
    (∀ a : ButtonAction,
        "buttons" ∈ jsonKeys (serializeButtonAction a) ↔ a.buttons ≠ []) := by
  constructor
  · intro menuType btns
    simpa [buildButtonAction] using foldl_buttonStep_buttons btns
      { name := if menuType = "location_request_message" then "send_location" else ""
        parameters := none
        buttons := [] }
  · intro a
    by_cases hn : a.name = "" <;> cases hp : a.parameters <;> cases hb : a.buttons <;>
      simp [serializeButtonAction, jsonKeys, hn, hp, hb]

/-- Claim C1 counterexample: an interactive-list send whose HTTP response has
status 400 still returns a success result (sendListMessage never inspects the
status), contradicting the claim that every send rejects any status other
than 200/202 with a SendRejected error. -/
theorem C1_counterexample_interactive_accepts_400 :
    (SendInteractiveList "77001112233" "pick one" "Open" [] none
        { doErr := none, status := 400, body := "bad request body" }
        (fun _ => Except.ok
          { messaging_product := "whatsapp", contacts := [], messages := [] })).2
      = Except.ok { messaging_product := "whatsapp", contacts := [], messages := [] } := rfl

/-- Claim C1 as amended: only the text send (SendMessage) accepts exactly 200
and 202 and rejects every other status with the status code and raw body
(once the body has decoded); the audio, image and location sends accept every
status below 300 and reject only statuses of 300 or above (the audio
rejection carries the status but no body); the interactive list/buttons path
(sendListMessage) performs no status validation at all and returns success
for any status whenever transport and decode succeed. -/
theorem C1_status_handling_amended :
    (∀ (r b : String) (ex : ReadExchange)
        (dec : String → Except String MessageResponse) (mr : MessageResponse),
        ex.doErr = none → ex.readErr = none → dec ex.body = Except.ok mr →
        ex.status ≠ 200 → ex.status ≠ 202 →
        (SendMessage r b none none ex dec).2
          = Except.error (GoErr.rejected ex.status (some ex.body))) ∧
    (∀ (r mid : String) (ex : Exchange)
        (dec : String → Except String MessageResponse),
        ex.doErr = none → 300 ≤ ex.status →
        (sendWhatsAppMedia r mid none none ex dec).2
          = Except.error (GoErr.rejected ex.status none)) ∧
    (∀ (r mid : String) (ex : Exchange),
        ex.doErr = none → 300 ≤ ex.status →
        (sendWhatsAppImage r mid none none ex).2
          = Except.error (GoErr.rejected ex.status (some ex.body))) ∧
    (∀ (r : String) (lat lon : Rat) (nm ad : String) (ex : Exchange)
        (dec : String → Except String MessageResponse),
        ex.doErr = none → 300 ≤ ex.status →
        (SendWhatsAppLocation r lat lon nm ad none none ex dec).2
          = Except.error (GoErr.rejected ex.status (some ex.body))) ∧
    (∀ (m : WhatsAppMessage) (mE : Option String) (ex : Exchange)
        (dec : String → Except String MessageResponse) (mr : MessageResponse),
        ex.doErr = none → dec ex.body = Except.ok mr →
        (sendListMessage m mE ex dec).2 = Except.ok mr) ∧
    (∀ (r mid : String) (ex : Exchange)
        (dec : String → Except String MessageResponse) (mr : MessageResponse),
        ex.doErr = none → ex.status < 300 → dec ex.body = Except.ok mr →
        (sendWhatsAppMedia r mid none none ex dec).2 = Except.ok mr) := by
  refine ⟨?_, ?_, ?_, ?_, ?_, ?_⟩
  · intro r b ex dec mr hdo hread hdec h200 h202
    simp [SendMessage, hdo, hread, hdec, h200, h202]
  · intro r mid ex dec hdo hge
    simp [sendWhatsAppMedia, hdo, hge]
  · intro r mid ex hdo hge
    simp [sendWhatsAppImage, hdo, hge]
  · intro r lat lon nm ad ex dec hdo hge
    simp [SendWhatsAppLocation, hdo, hge]
  · intro m mE ex dec mr hdo hdec
    simp [sendListMessage, hdo, hdec]
  · intro r mid ex dec mr hdo hlt hdec
    simp [sendWhatsAppMedia, hdo, hdec, Nat.not_le.mpr hlt]

/-- Witness for C1's amended theorem at concrete inputs: a 404 text send is
rejected with status and body; a 500 audio send is rejected without body; a
500 image send and a 500 location send are rejected with body; a 400
interactive send still succeeds; a 204 audio send is accepted. -/
theorem C1_status_handling_amended_witness :
    (SendMessage "77001112233" "hi" none none
        { doErr := none, status := 404, readErr := none, body := "not found" }
        (fun _ => Except.ok
          { messaging_product := "whatsapp", contacts := [], messages := [] })).2
      = Except.error (GoErr.rejected 404 (some "not found")) ∧
    (sendWhatsAppMedia "77001112233" "M1" none none
        { doErr := none, status := 500, body := "oops" }
        (fun _ => Except.ok
          { messaging_product := "whatsapp", contacts := [], messages := [] })).2
      = Except.error (GoErr.rejected 500 none) ∧
    (sendWhatsAppImage "77001112233" "M2" none none
        { doErr := none, status := 500, body := "oops" }).2
      = Except.error (GoErr.rejected 500 (some "oops")) ∧
    (SendWhatsAppLocation "77001112233" 43 76 "HQ" "Main street 1" none none
        { doErr := none, status := 500, body := "oops" }
        (fun _ => Except.ok
          { messaging_product := "whatsapp", contacts := [], messages := [] })).2
      = Except.error (GoErr.rejected 500 (some "oops")) ∧
    (sendListMessage (mkListMessage "77001112233" "pick one" "Open" []) none
        { doErr := none, status := 400, body := "bad request body" }
        (fun _ => Except.ok
          { messaging_product := "whatsapp", contacts := [], messages := [] })).2
      = Except.ok { messaging_product := "whatsapp", contacts := [], messages := [] } ∧
    (sendWhatsAppMedia "77001112233" "M1" none none
        { doErr := none, status := 204, body := "no content" }
        (fun _ => Except.ok
          { messaging_product := "whatsapp", contacts := [], messages := [] })).2
      = Except.ok { messaging_product := "whatsapp", contacts := [], messages := [] } :=
  ⟨C1_status_handling_amended.1 _ _ _ _ _ rfl rfl rfl (by decide) (by decide),
   C1_status_handling_amended.2.1 _ _ _ _ rfl (by decide),
   C1_status_handling_amended.2.2.1 _ _ _ rfl (by decide),
   C1_status_handling_amended.2.2.2.1 _ 43 76 _ _ _ _ rfl (by decide),
   C1_status_handling_amended.2.2.2.2.1 _ _ _ _ _ rfl rfl,
   C1_status_handling_amended.2.2.2.2.2 _ _ _ _ _ rfl (by decide) rfl⟩

/-- Claim C2 counterexample: an interactive send whose response body fails to
decode still returns a success result (the zero-valued response): the decode
error is printed and swallowed, not surfaced. -/
theorem C2_counterexample_decode_error_swallowed :
    (SendInteractiveList "77001112233" "pick one" "Open" [] none
        { doErr := none, status := 200, body := "not json at all" }
        (fun _ => Except.error "invalid character n looking for beginning of value")).2
      = Except.ok { messaging_product := "", contacts := [], messages := [] } := rfl

/-- Claim C2 as amended: SendMessage surfaces every failure (it returns
success only when marshal, request construction, transport, body read and
decode all succeeded and the status is 200 or 202), but the sendListMessage
path used by the interactive sends surfaces only the transport error: a
marshal failure changes nothing about the returned value, and a decode
failure is swallowed with a success result carrying the zero-valued
response. -/
theorem C2_error_propagation_amended :
    (∀ (r b : String) (mE nE : Option String) (ex : ReadExchange)
        (dec : String → Except String MessageResponse) (mr : MessageResponse),
        (SendMessage r b mE nE ex dec).2 = Except.ok mr →
        mE = none ∧ nE = none ∧ ex.doErr = none ∧ ex.readErr = none ∧
        dec ex.body = Except.ok mr ∧ (ex.status = 200 ∨ ex.status = 202)) ∧
    (∀ (m : WhatsAppMessage) (mE : Option String) (ex : Exchange)
        (dec : String → Except String MessageResponse) (e : String),
        ex.doErr = some e →
        (sendListMessage m mE ex dec).2 = Except.error (GoErr.transport e)) ∧
    (∀ (m : WhatsAppMessage) (e : String) (ex : Exchange)
        (dec : String → Except String MessageResponse),
        sendListMessage m (some e) ex dec = sendListMessage m none ex dec) ∧
    (∀ (m : WhatsAppMessage) (mE : Option String) (ex : Exchange)
        (dec : String → Except String MessageResponse) (e : String),
        ex.doErr = none → dec ex.body = Except.error e →
        (sendListMessage m mE ex dec).2
          = Except.ok { messaging_product := "", contacts := [], messages := [] }) := by
  refine ⟨?_, ?_, ?_, ?_⟩
  · intro r b mE nE ex dec mr h
    cases hmE : mE <;> cases hnE : nE <;> cases hdo : ex.doErr <;>
      cases hread : ex.readErr <;> cases hdec : dec ex.body <;>
      simp_all [SendMessage]
    by_cases hs : ex.status ≠ 200 ∧ ex.status ≠ 202
    · simp [hs] at h
    · constructor
      · simpa [hs] using h
      · rcases Decidable.not_and_iff_or_not.mp hs with h' | h' <;>
          simp at h' <;> simp [h']
  · intro m mE ex dec e hdo
    simp [sendListMessage, hdo]
  · intro m e ex dec
    rfl
  · intro m mE ex dec e hdo hdec
    simp [sendListMessage, hdo, hdec]

/-- Witness for C2's amended theorem at concrete inputs: a successful text
send implies all steps succeeded; a transport failure, an ignored marshal
failure, and a swallowed decode failure on the interactive path. -/
theorem C2_error_propagation_amended_witness :
    ((none : Option String) = none ∧ (none : Option String) = none ∧
        (none : Option String) = none ∧ (none : Option String) = none ∧
        (fun _ : String =>
            (Except.ok { messaging_product := "whatsapp", contacts := [], messages := [] }
              : Except String MessageResponse)) "ack"
          = Except.ok { messaging_product := "whatsapp", contacts := [], messages := [] } ∧
        ((200 : Nat) = 200 ∨ (200 : Nat) = 202)) ∧
    (sendListMessage (mkListMessage "77001112233" "pick one" "Open" []) none
        { doErr := some "connection refused", status := 0, body := "" }
        (fun _ => Except.ok
          { messaging_product := "whatsapp", contacts := [], messages := [] })).2
      = Except.error (GoErr.transport "connection refused") ∧
    sendListMessage (mkListMessage "77001112233" "pick one" "Open" []) (some "marshal broke")
        { doErr := none, status := 200, body := "ack" }
        (fun _ => Except.ok
          { messaging_product := "whatsapp", contacts := [], messages := [] })
      = sendListMessage (mkListMessage "77001112233" "pick one" "Open" []) none
          { doErr := none, status := 200, body := "ack" }
          (fun _ => Except.ok
            { messaging_product := "whatsapp", contacts := [], messages := [] }) ∧
    (sendListMessage (mkListMessage "77001112233" "pick one" "Open" []) none
        { doErr := none, status := 200, body := "garbage" }
        (fun _ => Except.error "invalid character g")).2
      = Except.ok { messaging_product := "", contacts := [], messages := [] } :=
  ⟨C2_error_propagation_amended.1 "77001112233" "hi" none none
      { doErr := none, status := 200, readErr := none, body := "ack" }
      (fun _ => Except.ok
        { messaging_product := "whatsapp", contacts := [], messages := [] })
      { messaging_product := "whatsapp", contacts := [], messages := [] } rfl,
   C2_error_propagation_amended.2.1 _ none _ _ "connection refused" rfl,
   C2_error_propagation_amended.2.2.1 _ "marshal broke" _ _,
   C2_error_propagation_amended.2.2.2 _ none _ _ "invalid character g" rfl rfl⟩

/-- Claim C6 counterexample: the serialized location payload has no
recipient_type key at all (LocationMessage carries no such field),
contradicting the claim that the location send's payload contains
recipient_type "individual". -/
theorem C6_counterexample_location_omits_recipient_type :
    "recipient_type" ∉ jsonKeys (serializeLocationMessage
      (mkLocationMessage "77001112233" 43 76 "HQ" "Main street 1")) := by
  decide

/-- Claim C6 as amended: every send carries the messaging_product literal
"whatsapp"; the text and the two interactive sends carry recipient_type
"individual"; the audio, image AND location sends omit recipient_type
entirely. -/
theorem C6_fixed_literals_amended :
    (∀ r b : String,
        ("messaging_product", Jval.str "whatsapp") ∈ serializeTextPayload r b ∧
        ("recipient_type", Jval.str "individual") ∈ serializeTextPayload r b) ∧
    (∀ (r b t : String) (items : List ListItem),
        ("messaging_product", Jval.str "whatsapp")
            ∈ serializeWhatsAppMessage (mkListMessage r b t items) ∧
        ("recipient_type", Jval.str "individual")
            ∈ serializeWhatsAppMessage (mkListMessage r b t items)) ∧
    (∀ (r mt b : String) (btns : List ButtonItem),
        ("messaging_product", Jval.str "whatsapp")
            ∈ serializeWhatsAppMessage (mkButtonsMessage r mt b btns) ∧
        ("recipient_type", Jval.str "individual")
            ∈ serializeWhatsAppMessage (mkButtonsMessage r mt b btns)) ∧
    (∀ r mid : String,
        ("messaging_product", Jval.str "whatsapp")
            ∈ serializeAudioMessage (mkAudioMessage r mid) ∧
        "recipient_type" ∉ jsonKeys (serializeAudioMessage (mkAudioMessage r mid))) ∧
    (∀ r mid : String,
        ("messaging_product", Jval.str "whatsapp")
            ∈ serializeImageMessage (mkImageMessage r mid) ∧
        "recipient_type" ∉ jsonKeys (serializeImageMessage (mkImageMessage r mid))) ∧
    (∀ (r : String) (lat lon : Rat) (nm ad : String),
        ("messaging_product", Jval.str "whatsapp")
            ∈ serializeLocationMessage (mkLocationMessage r lat lon nm ad) ∧
        "recipient_type"
            ∉ jsonKeys (serializeLocationMessage (mkLocationMessage r lat lon nm ad))) := by
  refine ⟨?_, ?_, ?_, ?_, ?_, ?_⟩
  · intro r b
    exact ⟨List.Mem.head _, List.Mem.tail _ (List.Mem.head _)⟩
  · intro r b t items
    exact ⟨List.Mem.head _, List.Mem.tail _ (List.Mem.head _)⟩
  · intro r mt b btns
    exact ⟨List.Mem.head _, List.Mem.tail _ (List.Mem.head _)⟩
  · intro r mid
    exact ⟨List.Mem.head _, by simp [serializeAudioMessage, jsonKeys, mkAudioMessage]⟩
  · intro r mid
    exact ⟨List.Mem.head _, by simp [serializeImageMessage, jsonKeys, mkImageMessage]⟩
  · intro r lat lon nm ad
    exact ⟨List.Mem.head _, by simp [serializeLocationMessage, jsonKeys, mkLocationMessage]⟩

/-- Claim C7: the serialized location object carries the name key iff the
supplied name is non-empty and the address key iff the supplied address is
non-empty; absent keys are simply not emitted (the serializer never emits a
null). -/
theorem C7_location_optional_fields (r : String) (lat lon : Rat) (nm ad : String) :
    (("name" ∈ jsonKeys (serializeLocationFields
        (mkLocationMessage r lat lon nm ad).location)) ↔ nm ≠ "") ∧
    (("address" ∈ jsonKeys (serializeLocationFields
        (mkLocationMessage r lat lon nm ad).location)) ↔ ad ≠ "") := by
  by_cases h1 : nm = "" <;> by_cases h2 : ad = "" <;>
    simp [mkLocationMessage, serializeLocationFields, jsonKeys, h1, h2]

/-- Claim C8: whenever SendAudioToWhatsApp succeeds, the string it returns is
exactly the media ID uploadMedia extracted from the upload response, and the
audio payload it posted carries that same ID in its audio.id field. -/
theorem C8_upload_send_roundtrip (r fp mid : String) (uenv : UploadEnv)
    (udec : String → Except String String) (mE nE : Option String) (ex : Exchange)
    (dec : String → Except String MessageResponse)
    (h : (SendAudioToWhatsApp r fp uenv udec mE nE ex dec).2 = Except.ok mid) :
    uploadMedia fp "audio/ogg" uenv udec = Except.ok mid ∧
    (SendAudioToWhatsApp r fp uenv udec mE nE ex dec).1
      = [Payload.audioPayload (mkAudioMessage r mid)] ∧
    (mkAudioMessage r mid).audio.id = mid := by
  cases hup : uploadMedia fp "audio/ogg" uenv udec with
  | error e => simp [SendAudioToWhatsApp, hup] at h
  | ok mid0 =>
    rcases hres : sendWhatsAppMedia r mid0 mE nE ex dec with ⟨ps, res⟩
    have hps : ps = [Payload.audioPayload (mkAudioMessage r mid0)] := by
      have h1 := congrArg Prod.fst hres
      simpa [sendWhatsAppMedia] using h1.symm
    cases res with
    | error e => simp [SendAudioToWhatsApp, hup, hres] at h
    | ok mr =>
      have hmid : mid0 = mid := by
        simpa [SendAudioToWhatsApp, hup, hres] using h
      subst hmid
      refine ⟨rfl, ?_, rfl⟩
      simp [SendAudioToWhatsApp, hup, hres, hps]

/-- Witness for C8 at a concrete input: a successful upload returning media
ID M9 followed by a successful audio send. -/
theorem C8_upload_send_roundtrip_witness :
    uploadMedia "voice.ogg" "audio/ogg"
        { openErr := none, formFileErr := none, copyErr := none, closeErr := none,
          newReqErr := none, ex := { doErr := none, status := 200, body := "upload ack" } }
        (fun _ => Except.ok "M9")
      = Except.ok "M9" ∧
    (SendAudioToWhatsApp "77001112233" "voice.ogg"
        { openErr := none, formFileErr := none, copyErr := none, closeErr := none,
          newReqErr := none, ex := { doErr := none, status := 200, body := "upload ack" } }
        (fun _ => Except.ok "M9") none none
        { doErr := none, status := 200, body := "send ack" }
        (fun _ => Except.ok
          { messaging_product := "whatsapp", contacts := [], messages := [] })).1
      = [Payload.audioPayload (mkAudioMessage "77001112233" "M9")] ∧
    (mkAudioMessage "77001112233" "M9").audio.id = "M9" :=
  C8_upload_send_roundtrip "77001112233" "voice.ogg" "M9"
    { openErr := none, formFileErr := none, copyErr := none, closeErr := none,
      newReqErr := none, ex := { doErr := none, status := 200, body := "upload ack" } }
    (fun _ => Except.ok "M9") none none
    { doErr := none, status := 200, body := "send ack" }
    (fun _ => Except.ok
      { messaging_product := "whatsapp", contacts := [], messages := [] })
    rfl

/-- Claim C9: DownloadMedia returns the full raw response body whenever
request construction, transport and the body read succeed, for every status
code; it errors only when one of those steps failed; and its result is
completely independent of the response status (no status validation). -/
theorem C9_download_ignores_status (mediaUrl : String) :
    (∀ ex : ReadExchange, ex.doErr = none → ex.readErr = none →
        DownloadMedia mediaUrl none ex = Except.ok ex.body) ∧
    (∀ (nre : Option String) (ex : ReadExchange) (e : GoErr),
        DownloadMedia mediaUrl nre ex = Except.error e →
        nre ≠ none ∨ ex.doErr ≠ none ∨ ex.readErr ≠ none) ∧
    (∀ (nre : Option String) (ex : ReadExchange) (s : Nat),
        DownloadMedia mediaUrl nre ex
          = DownloadMedia mediaUrl nre
              { doErr := ex.doErr, status := s, readErr := ex.readErr, body := ex.body }) := by
  refine ⟨?_, ?_, ?_⟩
  · intro ex hdo hread
    simp [DownloadMedia, hdo, hread]
  · intro nre ex e h
    cases hn : nre <;> cases hdo : ex.doErr <;> cases hread : ex.readErr <;>
      simp_all [DownloadMedia]
  · intro nre ex s
    cases ex with
    | mk d st re b => cases hn : nre <;> cases d <;> cases re <;> rfl

/-- Witness for C9 at concrete inputs: a download whose exchange succeeded
with status 503 still returns the body; a transport failure yields one of the
step failures; and the result at status 200 equals the result at status 503. -/
theorem C9_download_ignores_status_witness :
    DownloadMedia "https://cdn.example/file" none
        { doErr := none, status := 503, readErr := none, body := "raw bytes" }
      = Except.ok "raw bytes" ∧
    ((none : Option String) ≠ none ∨
        (some "connection reset" : Option String) ≠ none ∨
        (none : Option String) ≠ none) ∧
    DownloadMedia "https://cdn.example/file" none
        { doErr := none, status := 200, readErr := none, body := "raw bytes" }
      = DownloadMedia "https://cdn.example/file" none
          { doErr := none, status := 503, readErr := none, body := "raw bytes" } :=
  ⟨(C9_download_ignores_status "https://cdn.example/file").1
      { doErr := none, status := 503, readErr := none, body := "raw bytes" } rfl rfl,
   (C9_download_ignores_status "https://cdn.example/file").2.1 none
      { doErr := some "connection reset", status := 0, readErr := none, body := "" }
      (GoErr.transport "connection reset") rfl,
   (C9_download_ignores_status "https://cdn.example/file").2.2 none
      { doErr := none, status := 200, readErr := none, body := "raw bytes" } 503⟩

/-- Claim C10: SendMessage decodes the response body before checking the
status: when the body fails to decode the result is the decode error, for
every status code (including non-2xx); and a status-based rejection error is
produced only for a response whose body decoded successfully (and it carries
that response's status and raw body). -/
theorem C10_decode_before_status_check :
    (∀ (r b : String) (ex : ReadExchange)
        (dec : String → Except String MessageResponse) (e : String),
        ex.doErr = none → ex.readErr = none → dec ex.body = Except.error e →
        (SendMessage r b none none ex dec).2 = Except.error (GoErr.decode e)) ∧
    (∀ (r b : String) (mE nE : Option String) (ex : ReadExchange)
        (dec : String → Except String MessageResponse) (s : Nat) (ob : Option String),
        (SendMessage r b mE nE ex dec).2 = Except.error (GoErr.rejected s ob) →
        (∃ mr, dec ex.body = Except.ok mr) ∧ s = ex.status ∧ ob = some ex.body) := by
  constructor
  · intro r b ex dec e hdo hread hdec
    simp [SendMessage, hdo, hread, hdec]
  · intro r b mE nE ex dec s ob h
    cases hmE : mE <;> cases hnE : nE <;> cases hdo : ex.doErr <;>
      cases hread : ex.readErr <;> cases hdec : dec ex.body <;>
      simp_all [SendMessage]
    by_cases hs : ex.status ≠ 200 ∧ ex.status ≠ 202
    · rw [if_pos hs] at h
      have h2 : ex.status = s ∧ some ex.body = ob := by simpa using h
      exact ⟨h2.1.symm, h2.2.symm⟩
    · rw [if_neg hs] at h
      simp at h

/-- Witness for C10 at concrete inputs: a 404 response with an undecodable
body yields the decode error, not the rejection; a rejection implies the body
decoded. -/
theorem C10_decode_before_status_check_witness :
    (SendMessage "77001112233" "hi" none none
        { doErr := none, status := 404, readErr := none, body := "not json" }
        (fun _ => Except.error "invalid character n")).2
      = Except.error (GoErr.decode "invalid character n") ∧
    ((∃ mr, (fun _ : String =>
          (Except.ok { messaging_product := "whatsapp", contacts := [], messages := [] }
            : Except String MessageResponse)) "not found"
        = Except.ok mr) ∧
      (404 : Nat) = 404 ∧ (some "not found" : Option String) = some "not found") :=
  ⟨C10_decode_before_status_check.1 "77001112233" "hi"
      { doErr := none, status := 404, readErr := none, body := "not json" }
      (fun _ => Except.error "invalid character n") "invalid character n" rfl rfl rfl,
   C10_decode_before_status_check.2 "77001112233" "hi" none none
      { doErr := none, status := 404, readErr := none, body := "not found" }
      (fun _ => Except.ok { messaging_product := "whatsapp", contacts := [], messages := [] })
      404 (some "not found") rfl⟩
